import Mathlib

/-!
Shallow embedding of `otx/core/data/adapter/base_dataset_adapter.py`
(`BaseDatasetAdapter`): dataset import with subset bucketing, label-schema
preparation, shape-to-annotation conversion, and label pruning.

External Datumaro calls (format detection, `Dataset.import_from`, `subsets()`,
`categories()`) are modelled as an explicit environment record of pure
functions; Python exceptions are modelled with `Except PyErr`.
-/

/-- The four canonical dataset partitions (`Subset` in `otx.api.entities.subset`). -/
inductive Subset where
  | TRAINING
  | VALIDATION
  | TESTING
  | UNLABELED
deriving DecidableEq, Repr

/-- Python exceptions surfaced by the adapter code. `valueError` carries the
message from line 102; `indexError` models out-of-range list/str indexing;
`keyError` a missing dict key; `attributeError` attribute access on `None`.
`shapeError` exists only because the spec asks for it; the source never
raises it. -/
inductive PyErr where
  | valueError (msg : String)
  | indexError
  | keyError
  | attributeError
  | shapeError
deriving DecidableEq, Repr

/-- One category of the Datumaro label-categories list (`class_name` in the
source's comprehension has a `.name` attribute). -/
structure DatumaroCategory where
  name : String
deriving DecidableEq, Repr, Inhabited

/-- The value of `dataset.categories().get(AnnotationType.label)`: the
`.items` list and `.label_groups` metadata read in `_prepare_label_information`. -/
structure DatumaroLabelCategories where
  items : List DatumaroCategory
  label_groups : List String
deriving DecidableEq, Repr

/-- Environment of external Datumaro operations, abstracted over the type `D`
of raw dataset handles: `detect` is `Environment().detect_dataset(path)`
returning ranked format candidates, `importFrom` is
`Dataset.import_from(path, format)`, `subsetsOf` is `.subsets().items()`,
and `labelCategoriesOf` is `.categories().get(AnnotationType.label, None)`. -/
structure DatumaroEnv (D : Type) where
  detect : String → List String
  importFrom : String → String → D
  subsetsOf : D → List (String × D)
  labelCategoriesOf : D → Option DatumaroLabelCategories

/-- Python truthiness of an optional string argument (`if train_data_roots:`):
`None` and the empty string are falsy. -/
def pyTruthy : Option String → Bool
  | none => false
  | some s => !s.isEmpty

/-- Substring test over char lists, modelling Python's `sub in s`. -/
def containsSub : List Char → List Char → Bool
  | sub, [] => sub.isEmpty
  | sub, c :: t => sub.isPrefixOf (c :: t) || containsSub sub t

/-- Python's `sub in s` on strings. -/
def strIn (sub s : String) : Bool := containsSub sub.toList s.toList

/-- The subset-keyed dataset dict built by `_import_dataset` (keys are the
four `Subset` values; a `none` field means the key is absent). -/
structure SubsetMap (D : Type) where
  training : Option D := none
  validation : Option D := none
  testing : Option D := none
  unlabeled : Option D := none
deriving DecidableEq, Repr

/-- `dataset[s] = d` dict assignment. -/
def SubsetMap.set {D : Type} (m : SubsetMap D) (s : Subset) (d : D) : SubsetMap D :=
  match s with
  | Subset.TRAINING => { m with training := some d }
  | Subset.VALIDATION => { m with validation := some d }
  | Subset.TESTING => { m with testing := some d }
  | Subset.UNLABELED => { m with unlabeled := some d }

/-- `_select_data_type`: `data_candidates[0]`; Python raises `IndexError`
when the candidate list is empty. -/
def selectDataType (data_candidates : List String) : Except PyErr String :=
  match data_candidates with
  | [] => Except.error PyErr.indexError
  | c :: _ => Except.ok c

/-- The subset-name bucketing loop of `_import_dataset` (lines 113-117):
`if "train" in k or "default" in k: dataset[TRAINING] = v`
`elif "val" in k: dataset[VALIDATION] = v`. -/
def bucketSubsets {D : Type} (subs : List (String × D)) (m : SubsetMap D) : SubsetMap D :=
  subs.foldl
    (fun acc kv =>
      if strIn "train" kv.1 || strIn "default" kv.1 then acc.set Subset.TRAINING kv.2
      else if strIn "val" kv.1 then acc.set Subset.VALIDATION kv.2
      else acc)
    m

/-- Training-root block of `_import_dataset` (lines 105-124): detect the
format, import, bucket the reported subsets, set `is_train_phase = True`,
and, when a validation root is supplied, overwrite `dataset[VALIDATION]`
with its own detection+import. Returns the dataset dict, `data_type`
and `is_train_phase` (as `Option`: `none` = attribute never assigned). -/
def importTrainPart {D : Type} (env : DatumaroEnv D)
    (train_data_roots val_data_roots : Option String) :
    Except PyErr (SubsetMap D × Option String × Option Bool) :=
  if pyTruthy train_data_roots then
    match selectDataType (env.detect (train_data_roots.getD "")) with
    | Except.error e => Except.error e
    | Except.ok dt =>
      let m := bucketSubsets (env.subsetsOf (env.importFrom (train_data_roots.getD "") dt)) {}
      if pyTruthy val_data_roots then
        match selectDataType (env.detect (val_data_roots.getD "")) with
        | Except.error e => Except.error e
        | Except.ok vdt =>
          Except.ok
            (m.set Subset.VALIDATION (env.importFrom (val_data_roots.getD "") vdt),
             some dt, some true)
      else Except.ok (m, some dt, some true)
  else Except.ok ({}, none, none)

/-- Test-root block of `_import_dataset` (lines 126-130): detect+import into
`dataset[TESTING]` and set `is_train_phase = False`, overwriting any earlier
assignment. -/
def importTestPart {D : Type} (env : DatumaroEnv D) (test_data_roots : Option String)
    (m : SubsetMap D) (phase : Option Bool) : Except PyErr (SubsetMap D × Option Bool) :=
  if pyTruthy test_data_roots then
    match selectDataType (env.detect (test_data_roots.getD "")) with
    | Except.error e => Except.error e
    | Except.ok tdt =>
      Except.ok (m.set Subset.TESTING (env.importFrom (test_data_roots.getD "") tdt), some false)
  else Except.ok (m, phase)

/-- Unlabeled-root block of `_import_dataset` (lines 132-133): import with the
fixed format `"image_dir"`; the guard is `is not None`, not truthiness. -/
def importUnlabeledPart {D : Type} (env : DatumaroEnv D)
    (unlabeled_data_roots : Option String) (m : SubsetMap D) : SubsetMap D :=
  if unlabeled_data_roots ≠ none then
    m.set Subset.UNLABELED (env.importFrom (unlabeled_data_roots.getD "") "image_dir")
  else m

/-- Result of `_import_dataset` together with the instance attributes it
assigns: `data_type` and `is_train_phase` are `none` when the corresponding
attribute was never assigned (only annotated in `__init__`). -/
structure ImportResult (D : Type) where
  dataset : SubsetMap D
  data_type : Option String
  is_train_phase : Option Bool
deriving DecidableEq, Repr

/-- `_import_dataset` (lines 82-135): raise
`ValueError("At least 1 data_root is needed to train/test.")` when both the
train and test roots are `None`, then run the train, test and unlabeled
blocks in order. -/
def importDataset {D : Type} (env : DatumaroEnv D)
    (train_data_roots val_data_roots test_data_roots unlabeled_data_roots : Option String) :
    Except PyErr (ImportResult D) :=
  if train_data_roots = none ∧ test_data_roots = none then
    Except.error (PyErr.valueError "At least 1 data_root is needed to train/test.")
  else
    match importTrainPart env train_data_roots val_data_roots with
    | Except.error e => Except.error e
    | Except.ok (m, dt, phase) =>
      match importTestPart env test_data_roots m phase with
      | Except.error e => Except.error e
      | Except.ok (m2, phase2) =>
        Except.ok
          { dataset := importUnlabeledPart env unlabeled_data_roots m2,
            data_type := dt, is_train_phase := phase2 }

/-- One class recognized by a task (`otx.api.entities.label.LabelEntity`,
outside the excerpt). Modelled from the spec: "LabelEntity — identity
(integer id, name, domain, is-empty flag)"; fields are the constructor
keywords used by the adapter. -/
structure LabelEntity where
  name : String
  domain : String
  is_empty : Bool
  id : Nat
deriving DecidableEq, Repr, Inhabited

/-- The dict returned by `_prepare_label_information`. -/
structure LabelInfo where
  category_items : List DatumaroCategory
  label_groups : List String
  label_entities : List LabelEntity
deriving DecidableEq, Repr

/-- The comprehension of `_prepare_label_information` (lines 184-187):
`LabelEntity(name=class_name.name, domain=self.domain, is_empty=False, id=ID(i))
for i, class_name in enumerate(category_items)`, with `i` starting at the
given counter. -/
def buildLabelEntities (domain : String) : Nat → List DatumaroCategory → List LabelEntity
  | _, [] => []
  | i, c :: rest =>
    { name := c.name, domain := domain, is_empty := false, id := i }
      :: buildLabelEntities domain (i + 1) rest

/-- `_prepare_label_information` (lines 167-189): read the label categories of
the TRAINING subset when `is_train_phase`, else of the TESTING subset
(`KeyError` when the dict has no such subset, `AttributeError` when
`categories().get(label, None)` returned `None`), then build one
`LabelEntity` per category item. -/
def prepareLabelInformation {D : Type} (env : DatumaroEnv D) (domain : String)
    (is_train_phase : Bool) (datumaro_dataset : SubsetMap D) : Except PyErr LabelInfo :=
  match (if is_train_phase then datumaro_dataset.training else datumaro_dataset.testing) with
  | none => Except.error PyErr.keyError
  | some d =>
    match env.labelCategoriesOf d with
    | none => Except.error PyErr.attributeError
    | some lc =>
      Except.ok
        { category_items := lc.items, label_groups := lc.label_groups,
          label_entities := buildLabelEntities domain 0 lc.items }

/-- A raw Datumaro annotation as used by the shape converters: a flat
coordinate list `points` and a label index `label`. Coordinates are modelled
as exact rationals in place of Python floats. -/
structure DatumShape where
  points : List ℚ
  label : Nat
deriving DecidableEq, Repr

/-- `otx.api.entities.shapes.rectangle.Rectangle` (outside the excerpt).
Modelled from the spec: an axis-aligned rectangle carrying the four
coordinates the adapter passes to the constructor. -/
structure RectangleShape where
  x1 : ℚ
  y1 : ℚ
  x2 : ℚ
  y2 : ℚ
deriving DecidableEq, Repr

/-- `otx.api.entities.shapes.polygon.Point` (outside the excerpt). Modelled
from the spec: one 2-D point of a polygon. -/
structure PointShape where
  x : ℚ
  y : ℚ
deriving DecidableEq, Repr

/-- The shape payload of an `Annotation` produced by the adapter: a full-image
box, a rectangle, or a polygon. -/
inductive Shape where
  | fullBox
  | rect (r : RectangleShape)
  | polygon (pts : List PointShape)
deriving DecidableEq, Repr

/-- `ScoredLabel(label=...)` as built by the adapter (probability defaults). -/
structure ScoredLabel where
  label : LabelEntity
deriving DecidableEq, Repr

/-- `otx.api.entities.annotation.Annotation` (outside the excerpt). Modelled
from the spec: one shape plus its scored labels. -/
structure Annot where
  shape : Shape
  labels : List ScoredLabel
deriving DecidableEq, Repr

/-- `AnnotationSceneKind` values used by the adapter. -/
inductive AnnSceneKind where
  | annotationKind
  | predictionKind
deriving DecidableEq, Repr

/-- `AnnotationSceneEntity` / `NullAnnotationSceneEntity` (outside the
excerpt). Modelled from the spec: either the empty-scene sentinel or a
populated scene with a kind and an annotation list. -/
inductive AnnScene where
  | nullScene
  | scene (kind : AnnSceneKind) (annots : List Annot)
deriving DecidableEq, Repr

/-- `_get_ann_scene_entity` (lines 202-208): the empty-scene sentinel for an
empty shape list, otherwise a scene of kind ANNOTATION holding the shapes. -/
def getAnnSceneEntity (shapes : List Annot) : AnnScene :=
  if shapes.length = 0 then AnnScene.nullScene
  else AnnScene.scene AnnSceneKind.annotationKind shapes

/-- `_get_normalized_bbox_entity` (lines 216-226): rectangle with
`points[0]/width, points[1]/height, points[2]/width, points[3]/height` and
the label entity indexed by `annotation.label`; out-of-range accesses are
Python `IndexError`s. -/
def getNormalizedBboxEntity (label_entities : List LabelEntity) (a : DatumShape)
    (width height : ℚ) : Except PyErr Annot :=
  match a.points.get? 0, a.points.get? 1, a.points.get? 2, a.points.get? 3,
      label_entities.get? a.label with
  | some x1, some y1, some x2, some y2, some lab =>
    Except.ok
      { shape := Shape.rect
          { x1 := x1 / width, y1 := y1 / height, x2 := x2 / width, y2 := y2 / height },
        labels := [{ label := lab }] }
  | _, _, _, _, _ => Except.error PyErr.indexError

/-- `_get_original_bbox_entity` (lines 228-238): rectangle with the four raw
coordinates passed through unchanged. -/
def getOriginalBboxEntity (label_entities : List LabelEntity) (a : DatumShape) :
    Except PyErr Annot :=
  match a.points.get? 0, a.points.get? 1, a.points.get? 2, a.points.get? 3,
      label_entities.get? a.label with
  | some x1, some y1, some x2, some y2, some lab =>
    Except.ok
      { shape := Shape.rect { x1 := x1, y1 := y1, x2 := x2, y2 := y2 },
        labels := [{ label := lab }] }
  | _, _, _, _, _ => Except.error PyErr.indexError

/-- The comprehension of `_get_polygon_entity` (lines 244-247):
`Point(x=points[i]/width, y=points[i+1]/height) for i in range(0, len, 2)`.
For an odd-length list the access `points[i+1]` at the last step is a Python
`IndexError`. -/
def polygonPointsAux (width height : ℚ) : List ℚ → Except PyErr (List PointShape)
  | [] => Except.ok []
  | [_] => Except.error PyErr.indexError
  | x :: y :: rest =>
    match polygonPointsAux width height rest with
    | Except.error e => Except.error e
    | Except.ok tail => Except.ok ({ x := x / width, y := y / height } :: tail)

/-- `_get_polygon_entity` (lines 240-250): pair the flat coordinate list
two-at-a-time into normalized points; the label lookup happens after the
point list is built. -/
def getPolygonEntity (label_entities : List LabelEntity) (a : DatumShape)
    (width height : ℚ) : Except PyErr Annot :=
  match polygonPointsAux width height a.points, label_entities.get? a.label with
  | Except.ok pts, some lab =>
    Except.ok { shape := Shape.polygon pts, labels := [{ label := lab }] }
  | Except.error e, _ => Except.error e
  | _, none => Except.error PyErr.indexError

/-- `remove_unused_label_entities` (lines 252-265): the loop
`for used_label in used_labels: clean.append(self.label_entities[used_label])`;
an out-of-range index is a Python `IndexError`, modelled as `none`. -/
def removeUnusedLabelEntities (label_entities : List LabelEntity) :
    List Nat → Option (List LabelEntity)
  | [] => some []
  | i :: rest =>
    match label_entities.get? i, removeUnusedLabelEntities label_entities rest with
    | some e, some acc => some (e :: acc)
    | _, _ => none

/-! Helper lemmas about the import blocks (shared by several claims). -/

theorem importTrainPart_falsy {D : Type} (env : DatumaroEnv D) (tr v : Option String)
    (h : pyTruthy tr = false) : importTrainPart env tr v = Except.ok ({}, none, none) := by
  simp [importTrainPart, h]

theorem importTrainPart_ok_shape {D : Type} (env : DatumaroEnv D) (tr v : Option String)
    (m : SubsetMap D) (dt : Option String) (ph : Option Bool)
    (htr : pyTruthy tr = true)
    (h : importTrainPart env tr v = Except.ok (m, dt, ph)) :
    ph = some true ∧
    ∃ c cs, env.detect (tr.getD "") = c :: cs ∧ dt = some c ∧
      ((pyTruthy v = false →
          m = bucketSubsets (env.subsetsOf (env.importFrom (tr.getD "") c)) {}) ∧
       (∀ vc vcs, pyTruthy v = true → env.detect (v.getD "") = vc :: vcs →
          m = (bucketSubsets (env.subsetsOf (env.importFrom (tr.getD "") c)) {}).set
                Subset.VALIDATION (env.importFrom (v.getD "") vc))) := by
  rw [importTrainPart, htr] at h
  simp only [if_true] at h
  cases hdet : env.detect (tr.getD "") with
  | nil => rw [hdet] at h; simp [selectDataType] at h
  | cons c cs =>
    rw [hdet] at h
    simp only [selectDataType] at h
    by_cases hv : pyTruthy v = true
    · rw [hv] at h
      simp only [if_true] at h
      cases hvdet : env.detect (v.getD "") with
      | nil => rw [hvdet] at h; simp [selectDataType] at h
      | cons vc vcs =>
        rw [hvdet] at h
        simp only [selectDataType, Except.ok.injEq, Prod.mk.injEq] at h
        obtain ⟨hm, hdt, hph⟩ := h
        refine ⟨hph.symm, c, cs, rfl, hdt.symm, ?_, ?_⟩
        · intro hvf; rw [hv] at hvf; cases hvf
        · intro vc' vcs' _ hvdet'
          injection hvdet' with h1 h2
          subst h1
          exact hm.symm
    · rw [Bool.not_eq_true] at hv
      rw [hv] at h
      simp only [Bool.false_eq_true, if_false, Except.ok.injEq, Prod.mk.injEq] at h
      obtain ⟨hm, hdt, hph⟩ := h
      refine ⟨hph.symm, c, cs, rfl, hdt.symm, ?_, ?_⟩
      · intro _; exact hm.symm
      · intro vc vcs hvt _; rw [hv] at hvt; cases hvt

theorem importTestPart_falsy {D : Type} (env : DatumaroEnv D) (te : Option String)
    (m : SubsetMap D) (ph : Option Bool) (h : pyTruthy te = false) :
    importTestPart env te m ph = Except.ok (m, ph) := by
  simp [importTestPart, h]

theorem importTestPart_ok_shape {D : Type} (env : DatumaroEnv D) (te : Option String)
    (m m2 : SubsetMap D) (ph ph2 : Option Bool)
    (hte : pyTruthy te = true)
    (h : importTestPart env te m ph = Except.ok (m2, ph2)) :
    ph2 = some false ∧
    ∃ c cs, env.detect (te.getD "") = c :: cs ∧
      m2 = m.set Subset.TESTING (env.importFrom (te.getD "") c) := by
  rw [importTestPart, hte] at h
  simp only [if_true] at h
  cases hdet : env.detect (te.getD "") with
  | nil => rw [hdet] at h; simp [selectDataType] at h
  | cons c cs =>
    rw [hdet] at h
    simp only [selectDataType, Except.ok.injEq, Prod.mk.injEq] at h
    obtain ⟨hm, hph⟩ := h
    exact ⟨hph.symm, c, cs, rfl, hm.symm⟩

theorem importTrainPart_no_value_error {D : Type} (env : DatumaroEnv D)
    (tr v : Option String) (msg : String) :
    importTrainPart env tr v ≠ Except.error (PyErr.valueError msg) := by
  rw [importTrainPart]
  by_cases htr : pyTruthy tr = true
  · rw [htr]
    simp only [if_true]
    cases env.detect (tr.getD "") with
    | nil => simp [selectDataType]
    | cons c cs =>
      simp only [selectDataType]
      by_cases hv : pyTruthy v = true
      · rw [hv]
        simp only [if_true]
        cases env.detect (v.getD "") with
        | nil => simp [selectDataType]
        | cons vc vcs => simp [selectDataType]
      · rw [Bool.not_eq_true] at hv
        rw [hv]
        simp
  · rw [Bool.not_eq_true] at htr
    rw [htr]
    simp

theorem importTestPart_no_value_error {D : Type} (env : DatumaroEnv D)
    (te : Option String) (m : SubsetMap D) (ph : Option Bool) (msg : String) :
    importTestPart env te m ph ≠ Except.error (PyErr.valueError msg) := by
  rw [importTestPart]
  by_cases hte : pyTruthy te = true
  · rw [hte]
    simp only [if_true]
    cases env.detect (te.getD "") with
    | nil => simp [selectDataType]
    | cons c cs => simp [selectDataType]
  · rw [Bool.not_eq_true] at hte
    rw [hte]
    simp

/-- The training-bucket predicate of line 114: `"train" in k or "default" in k`. -/
def trainKey (k : String) : Bool := strIn "train" k || strIn "default" k

/-- The validation-bucket predicate actually reached by line 116: `"val" in k`
guarded by the `elif` (so only names that do not match `trainKey`). -/
def valKey (k : String) : Bool := !trainKey k && strIn "val" k

/-- The handle of the last pair whose name satisfies `p` (dict assignment in a
loop: the last write wins). -/
def lastMatch {D : Type} (p : String → Bool) : List (String × D) → Option D
  | [] => none
  | kv :: rest =>
    match lastMatch p rest with
    | some d => some d
    | none => if p kv.1 then some kv.2 else none

theorem bucketSubsets_training {D : Type} (subs : List (String × D)) (m : SubsetMap D) :
    (bucketSubsets subs m).training =
      match lastMatch trainKey subs with
      | some d => some d
      | none => m.training := by
  induction subs generalizing m with
  | nil => rfl
  | cons kv rest ih =>
    have hstep : bucketSubsets (kv :: rest) m = bucketSubsets rest
        (if strIn "train" kv.1 || strIn "default" kv.1 then m.set Subset.TRAINING kv.2
         else if strIn "val" kv.1 then m.set Subset.VALIDATION kv.2 else m) := rfl
    rw [hstep, ih]
    cases hlm : lastMatch trainKey rest with
    | some d => simp [lastMatch, hlm]
    | none =>
      simp only [lastMatch, hlm]
      by_cases ht : (strIn "train" kv.1 || strIn "default" kv.1) = true
      · rw [if_pos ht]
        have ht' : trainKey kv.1 = true := ht
        simp [ht', SubsetMap.set]
      · rw [Bool.not_eq_true] at ht
        rw [if_neg (by simp [ht])]
        have ht' : trainKey kv.1 = false := ht
        rw [ht']
        by_cases hv : strIn "val" kv.1 = true
        · rw [if_pos hv]
          simp [SubsetMap.set]
        · rw [Bool.not_eq_true] at hv
          rw [if_neg (by simp [hv])]
          simp

theorem bucketSubsets_validation {D : Type} (subs : List (String × D)) (m : SubsetMap D) :
    (bucketSubsets subs m).validation =
      match lastMatch valKey subs with
      | some d => some d
      | none => m.validation := by
  induction subs generalizing m with
  | nil => rfl
  | cons kv rest ih =>
    have hstep : bucketSubsets (kv :: rest) m = bucketSubsets rest
        (if strIn "train" kv.1 || strIn "default" kv.1 then m.set Subset.TRAINING kv.2
         else if strIn "val" kv.1 then m.set Subset.VALIDATION kv.2 else m) := rfl
    rw [hstep, ih]
    cases hlm : lastMatch valKey rest with
    | some d => simp [lastMatch, hlm]
    | none =>
      simp only [lastMatch, hlm]
      by_cases ht : (strIn "train" kv.1 || strIn "default" kv.1) = true
      · rw [if_pos ht]
        have ht' : valKey kv.1 = false := by simp [valKey, trainKey, ht]
        simp [ht', SubsetMap.set]
      · rw [Bool.not_eq_true] at ht
        rw [if_neg (by simp [ht])]
        by_cases hv : strIn "val" kv.1 = true
        · rw [if_pos hv]
          have hv' : valKey kv.1 = true := by simp [valKey, trainKey, ht, hv]
          simp [hv', SubsetMap.set]
        · rw [Bool.not_eq_true] at hv
          rw [if_neg (by simp [hv])]
          have hv' : valKey kv.1 = false := by simp [valKey, hv]
          simp [hv']

theorem bucketSubsets_testing {D : Type} (subs : List (String × D)) (m : SubsetMap D) :
    (bucketSubsets subs m).testing = m.testing := by
  induction subs generalizing m with
  | nil => rfl
  | cons kv rest ih =>
    have hstep : bucketSubsets (kv :: rest) m = bucketSubsets rest
        (if strIn "train" kv.1 || strIn "default" kv.1 then m.set Subset.TRAINING kv.2
         else if strIn "val" kv.1 then m.set Subset.VALIDATION kv.2 else m) := rfl
    rw [hstep, ih]
    split
    · rfl
    · split <;> rfl

theorem bucketSubsets_unlabeled {D : Type} (subs : List (String × D)) (m : SubsetMap D) :
    (bucketSubsets subs m).unlabeled = m.unlabeled := by
  induction subs generalizing m with
  | nil => rfl
  | cons kv rest ih =>
    have hstep : bucketSubsets (kv :: rest) m = bucketSubsets rest
        (if strIn "train" kv.1 || strIn "default" kv.1 then m.set Subset.TRAINING kv.2
         else if strIn "val" kv.1 then m.set Subset.VALIDATION kv.2 else m) := rfl
    rw [hstep, ih]
    split
    · rfl
    · split <;> rfl

theorem importUnlabeledPart_keeps {D : Type} (env : DatumaroEnv D)
    (u : Option String) (m : SubsetMap D) :
    (importUnlabeledPart env u m).training = m.training ∧
    (importUnlabeledPart env u m).validation = m.validation ∧
    (importUnlabeledPart env u m).testing = m.testing := by
  rw [importUnlabeledPart]
  split
  · exact ⟨rfl, rfl, rfl⟩
  · exact ⟨rfl, rfl, rfl⟩

theorem pyTruthy_some {s : String} (h : s ≠ "") : pyTruthy (some s) = true := by
  have he : s.isEmpty = false := by
    rw [Bool.eq_false_iff]
    intro hc
    exact h ((String.isEmpty_iff s).mp hc)
  simp [pyTruthy, he]

theorem importDataset_ok_attrs {D : Type} (env : DatumaroEnv D)
    (tr v te u : Option String) (r : ImportResult D)
    (hne : ¬(tr = none ∧ te = none))
    (h : importDataset env tr v te u = Except.ok r) :
    (pyTruthy te = true → r.is_train_phase = some false) ∧
    (pyTruthy te = false → pyTruthy tr = true → r.is_train_phase = some true) ∧
    (pyTruthy te = false → pyTruthy tr = false → r.is_train_phase = none) ∧
    (pyTruthy tr = true → ∃ c, r.data_type = some c) ∧
    (pyTruthy tr = false → r.data_type = none) := by
  unfold importDataset at h
  rw [if_neg hne] at h
  split at h
  · simp at h
  · next m dt ph htp =>
    split at h
    · simp at h
    · next m2 ph2 htst =>
      simp only [Except.ok.injEq] at h
      subst h
      refine ⟨?_, ?_, ?_, ?_, ?_⟩
      · intro htt
        obtain ⟨hph2, _⟩ := importTestPart_ok_shape env te m m2 ph ph2 htt htst
        simpa using hph2
      · intro htf htrt
        rw [importTestPart_falsy env te m ph htf] at htst
        simp only [Except.ok.injEq, Prod.mk.injEq] at htst
        obtain ⟨-, hph⟩ := htst
        obtain ⟨hpht, -⟩ := importTrainPart_ok_shape env tr v m dt ph htrt htp
        simp [← hph, hpht]
      · intro htf htrf
        rw [importTestPart_falsy env te m ph htf] at htst
        simp only [Except.ok.injEq, Prod.mk.injEq] at htst
        obtain ⟨-, hph⟩ := htst
        rw [importTrainPart_falsy env tr v htrf] at htp
        simp only [Except.ok.injEq, Prod.mk.injEq] at htp
        obtain ⟨-, -, hpht⟩ := htp
        simp [← hph, ← hpht]
      · intro htrt
        obtain ⟨-, c, cs, -, hdt, -⟩ := importTrainPart_ok_shape env tr v m dt ph htrt htp
        exact ⟨c, by simpa using hdt⟩
      · intro htrf
        rw [importTrainPart_falsy env tr v htrf] at htp
        simp only [Except.ok.injEq, Prod.mk.injEq] at htp
        obtain ⟨-, hdt, -⟩ := htp
        simp [← hdt]

instance {ε α : Type} [DecidableEq ε] [DecidableEq α] : DecidableEq (Except ε α) := fun a b =>
  match a, b with
  | Except.error e1, Except.error e2 =>
    if h : e1 = e2 then Decidable.isTrue (by rw [h]) else Decidable.isFalse (by simp [h])
  | Except.error _, Except.ok _ => Decidable.isFalse (by simp)
  | Except.ok _, Except.error _ => Decidable.isFalse (by simp)
  | Except.ok a1, Except.ok a2 =>
    if h : a1 = a2 then Decidable.isTrue (by rw [h]) else Decidable.isFalse (by simp [h])

theorem importTestPart_keeps_validation {D : Type} (env : DatumaroEnv D) (te : Option String)
    (m m2 : SubsetMap D) (ph ph2 : Option Bool)
    (h : importTestPart env te m ph = Except.ok (m2, ph2)) :
    m2.validation = m.validation := by
  by_cases hte : pyTruthy te = true
  · obtain ⟨-, c, cs, -, hm⟩ := importTestPart_ok_shape env te m m2 ph ph2 hte h
    rw [hm]
    rfl
  · rw [Bool.not_eq_true] at hte
    rw [importTestPart_falsy env te m ph hte] at h
    simp only [Except.ok.injEq, Prod.mk.injEq] at h
    rw [← h.1]

theorem buildLabelEntities_length (domain : String) (i : Nat)
    (items : List DatumaroCategory) :
    (buildLabelEntities domain i items).length = items.length := by
  induction items generalizing i with
  | nil => rfl
  | cons c rest ih => simp [buildLabelEntities, ih]

theorem buildLabelEntities_get (domain : String) (i j : Nat)
    (items : List DatumaroCategory) :
    (buildLabelEntities domain i items).get? j =
      (items.get? j).map fun c =>
        { name := c.name, domain := domain, is_empty := false, id := i + j } := by
  induction items generalizing i j with
  | nil => simp [buildLabelEntities]
  | cons c rest ih =>
    cases j with
    | zero => simp [buildLabelEntities]
    | succ j' =>
      have hstep : (buildLabelEntities domain i (c :: rest)).get? (j' + 1) =
          (buildLabelEntities domain (i + 1) rest).get? j' := rfl
      have hstep2 : (c :: rest).get? (j' + 1) = rest.get? j' := rfl
      rw [hstep, hstep2, ih (i + 1) j']
      have harith : i + 1 + j' = i + (j' + 1) := by omega
      rw [harith]

/-- A concrete Datumaro environment over `Nat` handles, used by the witnesses:
the training root imports a dataset with subsets "train" and "val", the
validation/test roots import sentinel handles of their own. -/
def demoEnv : DatumaroEnv Nat where
  detect := fun r => if r = "bad_root" then [] else ["coco", "voc"]
  importFrom := fun r _ =>
    if r = "train_root" then 10 else if r = "val_root" then 20
    else if r = "test_root" then 30 else 40
  subsetsOf := fun d => if d = 10 then [("train", 11), ("val", 12)] else []
  labelCategoriesOf := fun d =>
    if d = 11 then some { items := [{ name := "cat" }, { name := "dog" }], label_groups := [] }
    else none

/-- C1: for every non-empty category list read from the source subset
(TRAINING when the adapter is in train phase, TESTING otherwise),
`_prepare_label_information` succeeds and produces exactly one LabelEntity per
category, the i-th (0-based, in category order) having id i, the i-th
category's name, the adapter's domain, and `is_empty = false`. -/
theorem prepare_label_information_count_and_fields {D : Type} (env : DatumaroEnv D)
    (domain : String) (phase : Bool) (dataset : SubsetMap D) (d : D)
    (lc : DatumaroLabelCategories)
    (hsrc : (if phase then dataset.training else dataset.testing) = some d)
    (hlc : env.labelCategoriesOf d = some lc)
    (hne : lc.items ≠ []) :
    prepareLabelInformation env domain phase dataset =
      Except.ok { category_items := lc.items, label_groups := lc.label_groups,
                  label_entities := buildLabelEntities domain 0 lc.items } ∧
    (buildLabelEntities domain 0 lc.items).length = lc.items.length ∧
    ∀ i c, lc.items.get? i = some c →
      (buildLabelEntities domain 0 lc.items).get? i =
        some { name := c.name, domain := domain, is_empty := false, id := i } := by
  refine ⟨?_, buildLabelEntities_length domain 0 lc.items, ?_⟩
  · simp [prepareLabelInformation, hsrc, hlc]
  · intro i c hc
    rw [buildLabelEntities_get domain 0 i lc.items, hc]
    simp

/-- Witness for C1: the two-category demo dataset in train phase yields two
entities with ids 0 and 1. -/
theorem prepare_label_information_count_and_fields_witness :
    prepareLabelInformation demoEnv "CLASSIFICATION" true
        { training := some 11, validation := none, testing := none, unlabeled := none } =
      Except.ok
        { category_items := [{ name := "cat" }, { name := "dog" }], label_groups := [],
          label_entities :=
            buildLabelEntities "CLASSIFICATION" 0 [{ name := "cat" }, { name := "dog" }] } :=
  (prepare_label_information_count_and_fields demoEnv "CLASSIFICATION" true
      { training := some 11, validation := none, testing := none, unlabeled := none } 11
      { items := [{ name := "cat" }, { name := "dog" }], label_groups := [] }
      (by decide) (by decide) (by decide)).1

/-- C2: with both train and test roots null, `_import_dataset` fails with the
ValueError for every environment (so before any detection or import is
attempted, which the universal quantification over `env` expresses); with at
least one of the two non-null, this error is never raised. -/
theorem import_dataset_requires_data_root {D : Type} (env : DatumaroEnv D)
    (v u tr te : Option String) (h : tr ≠ none ∨ te ≠ none) :
    importDataset env none v none u =
      Except.error (PyErr.valueError "At least 1 data_root is needed to train/test.") ∧
    importDataset env tr v te u ≠
      Except.error (PyErr.valueError "At least 1 data_root is needed to train/test.") := by
  constructor
  · rw [importDataset, if_pos ⟨rfl, rfl⟩]
  · rw [importDataset, if_neg (by tauto)]
    split
    · next e heq =>
      intro hc
      injection hc with he
      subst he
      exact importTrainPart_no_value_error env tr v _ heq
    · next m dt ph htp =>
      split
      · next e heq =>
        intro hc
        injection hc with he
        subst he
        exact importTestPart_no_value_error env te m ph _ heq
      · next m2 ph2 htst => simp

/-- Witness for C2: both-null construction raises the ValueError, a train-only
construction does not. -/
theorem import_dataset_requires_data_root_witness :
    importDataset demoEnv none none none none =
      Except.error (PyErr.valueError "At least 1 data_root is needed to train/test.") ∧
    importDataset demoEnv (some "train_root") none none none ≠
      Except.error (PyErr.valueError "At least 1 data_root is needed to train/test.") :=
  import_dataset_requires_data_root demoEnv none none (some "train_root") none
    (Or.inl (by decide))

/-- C3: whenever construction with both a train root and a test root succeeds,
the adapter ends in test phase: the `is_train_phase = True` set by the train
block is unconditionally overwritten by the test block. -/
theorem import_dataset_train_and_test_ends_test_phase {D : Type} (env : DatumaroEnv D)
    (ts te : String) (v u : Option String) (r : ImportResult D)
    (hts : ts ≠ "") (hte : te ≠ "")
    (h : importDataset env (some ts) v (some te) u = Except.ok r) :
    r.is_train_phase = some false := by
  have hattrs := importDataset_ok_attrs env (some ts) v (some te) u r (by simp) h
  exact hattrs.1 (pyTruthy_some hte)

/-- The result of importing the demo environment with both train and test
roots: train subsets bucketed, the test root imported into TESTING, and the
phase flag left at `False`. -/
def demoTrainTestRun : ImportResult Nat :=
  { dataset := { training := some 11, validation := some 12, testing := some 30,
                 unlabeled := none },
    data_type := some "coco", is_train_phase := some false }

/-- Witness for C3 on the demo environment. -/
theorem import_dataset_train_and_test_ends_test_phase_witness :
    importDataset demoEnv (some "train_root") none (some "test_root") none =
      Except.ok demoTrainTestRun ∧
    demoTrainTestRun.is_train_phase = some false :=
  ⟨by decide,
   import_dataset_train_and_test_ends_test_phase demoEnv "train_root" "test_root" none none
     demoTrainTestRun (by decide) (by decide) (by decide)⟩

/-- C4: when a train root and an explicit validation root are both supplied
and construction succeeds, the VALIDATION entry of the subset dict is exactly
the import of the explicit validation root; any validation subset inferred
from the training import is overwritten, not merged. -/
theorem import_dataset_val_root_overrides_validation {D : Type} (env : DatumaroEnv D)
    (ts vs : String) (te u : Option String) (r : ImportResult D)
    (vc : String) (vcs : List String)
    (hts : ts ≠ "") (hvs : vs ≠ "")
    (hvdet : env.detect vs = vc :: vcs)
    (h : importDataset env (some ts) (some vs) te u = Except.ok r) :
    r.dataset.validation = some (env.importFrom vs vc) := by
  unfold importDataset at h
  rw [if_neg (by simp)] at h
  split at h
  · simp at h
  · next m dt ph htp =>
    split at h
    · simp at h
    · next m2 ph2 htst =>
      simp only [Except.ok.injEq] at h
      subst h
      obtain ⟨-, c, cs, -, -, -, hval⟩ :=
        importTrainPart_ok_shape env (some ts) (some vs) m dt ph (pyTruthy_some hts) htp
      have hm : m.validation = some (env.importFrom vs vc) := by
        rw [hval vc vcs (pyTruthy_some hvs) hvdet]
        rfl
      have hm2 : m2.validation = m.validation :=
        importTestPart_keeps_validation env te m m2 ph ph2 htst
      show (importUnlabeledPart env u m2).validation = some (env.importFrom vs vc)
      rw [(importUnlabeledPart_keeps env u m2).2.1, hm2, hm]

/-- The result of importing the demo environment with a train root (whose
imported dataset carries an embedded "val" subset, handle 12) plus an explicit
validation root, which overrides it with handle 20. -/
def demoTrainValRun : ImportResult Nat :=
  { dataset := { training := some 11, validation := some 20, testing := none,
                 unlabeled := none },
    data_type := some "coco", is_train_phase := some true }

/-- Witness for C4 on the demo environment: the embedded validation handle 12
is replaced by the explicit import 20. -/
theorem import_dataset_val_root_overrides_validation_witness :
    importDataset demoEnv (some "train_root") (some "val_root") none none =
      Except.ok demoTrainValRun ∧
    demoTrainValRun.dataset.validation = some 20 :=
  ⟨by decide,
   import_dataset_val_root_overrides_validation demoEnv "train_root" "val_root" none none
     demoTrainValRun "coco" ["voc"] (by decide) (by decide) (by decide) (by decide)⟩

/-- Environment whose training import reports a single subset named
"defaults": it contains "default" as a substring but is not equal to
"default". -/
def envC5 : DatumaroEnv Nat where
  detect := fun _ => ["imagenet"]
  importFrom := fun r _ => if r = "train_root" then 0 else 99
  subsetsOf := fun d => if d = 0 then [("defaults", 1)] else []
  labelCategoriesOf := fun _ => none

/-- C5 counterexample: the claim says only names containing "train" or equal
to "default" are bucketed into TRAINING, and that names matching no rule
contribute no entry; the name "defaults" matches none of the claim's rules,
yet the code assigns its handle to the TRAINING key (because line 114 tests
substring containment, `"default" in k`, not equality). -/
theorem subset_bucketing_counterexample :
    strIn "train" "defaults" = false ∧ "defaults" ≠ "default" ∧
    strIn "val" "defaults" = false ∧
    (importDataset envC5 (some "train_root") none none none).toOption.map
        (fun r => r.dataset.training) = some (some 1) := by decide

/-- C5 amended: from the training import, a subset name containing "train" or
containing "default" maps its handle to TRAINING (the last such name wins);
a name containing "val" but containing neither "train" nor "default" maps to
VALIDATION (last wins); and these are the only assignments made (TESTING and
UNLABELED stay empty in a train-only construction). -/
theorem subset_bucketing_amended_rule {D : Type} (env : DatumaroEnv D) (ts c : String)
    (cs : List String) (r : ImportResult D)
    (hts : ts ≠ "")
    (hdet : env.detect ts = c :: cs)
    (h : importDataset env (some ts) none none none = Except.ok r) :
    r.dataset.training = lastMatch trainKey (env.subsetsOf (env.importFrom ts c)) ∧
    r.dataset.validation = lastMatch valKey (env.subsetsOf (env.importFrom ts c)) ∧
    r.dataset.testing = none ∧ r.dataset.unlabeled = none := by
  unfold importDataset at h
  rw [if_neg (by simp)] at h
  split at h
  · simp at h
  · next m dt ph htp =>
    split at h
    · simp at h
    · next m2 ph2 htst =>
      simp only [Except.ok.injEq] at h
      subst h
      obtain ⟨-, c', cs', hdet', -, hnov, -⟩ :=
        importTrainPart_ok_shape env (some ts) none m dt ph (pyTruthy_some hts) htp
      have hcc : c' = c := by
        have hcons : c' :: cs' = c :: cs := hdet'.symm.trans hdet
        injection hcons with h1 h2
      have hm : m = bucketSubsets (env.subsetsOf (env.importFrom ts c)) {} := by
        rw [← hcc]
        exact hnov rfl
      rw [importTestPart_falsy env none m ph rfl] at htst
      simp only [Except.ok.injEq, Prod.mk.injEq] at htst
      obtain ⟨hm2, -⟩ := htst
      have hu : importUnlabeledPart env none m2 = m2 := rfl
      refine ⟨?_, ?_, ?_, ?_⟩
      · show (importUnlabeledPart env none m2).training = _
        rw [hu, ← hm2, hm, bucketSubsets_training]
        cases lastMatch trainKey (env.subsetsOf (env.importFrom ts c)) <;> rfl
      · show (importUnlabeledPart env none m2).validation = _
        rw [hu, ← hm2, hm, bucketSubsets_validation]
        cases lastMatch valKey (env.subsetsOf (env.importFrom ts c)) <;> rfl
      · show (importUnlabeledPart env none m2).testing = none
        rw [hu, ← hm2, hm, bucketSubsets_testing]
      · show (importUnlabeledPart env none m2).unlabeled = none
        rw [hu, ← hm2, hm, bucketSubsets_unlabeled]

/-- Witness for the amended C5 rule on the "defaults" environment: TRAINING
gets handle 1 (last write of the only matching name), VALIDATION, TESTING and
UNLABELED stay empty. -/
theorem subset_bucketing_amended_rule_witness :
    (importDataset envC5 (some "train_root") none none none).toOption.map
        (fun r => (r.dataset.training, r.dataset.validation,
                   r.dataset.testing, r.dataset.unlabeled)) =
      some (lastMatch trainKey [("defaults", 1)], lastMatch valKey [("defaults", 1)],
            none, none) := by
  have h : importDataset envC5 (some "train_root") none none none =
      Except.ok { dataset := { training := some 1, validation := none, testing := none,
                               unlabeled := none },
                  data_type := some "imagenet", is_train_phase := some true } := by decide
  obtain ⟨h1, h2, h3, h4⟩ := subset_bucketing_amended_rule envC5 "train_root" "imagenet" []
    _ (by decide) (by decide) h
  rw [h]
  have e1 : lastMatch trainKey [("defaults", (1 : Nat))] =
      lastMatch trainKey (envC5.subsetsOf (envC5.importFrom "train_root" "imagenet")) := rfl
  have e2 : lastMatch valKey [("defaults", (1 : Nat))] =
      lastMatch valKey (envC5.subsetsOf (envC5.importFrom "train_root" "imagenet")) := rfl
  rw [e1, e2, ← h1, ← h2]
  rfl

/-- C6: for a raw bbox annotation with points (x1,y1,x2,y2) and positive
width/height, the normalized conversion yields the rectangle
(x1/W, y1/H, x2/W, y2/H); multiplying each coordinate back by its dimension
recovers the original exactly (rationals model the float arithmetic, so the
round-trip is exact rather than merely within tolerance); and the pixel
conversion passes all four coordinates through unchanged. -/
theorem normalized_bbox_roundtrip (E : List LabelEntity) (lab : LabelEntity)
    (a : DatumShape) (x1 y1 x2 y2 W H : ℚ)
    (hpts : a.points = [x1, y1, x2, y2]) (hlab : E.get? a.label = some lab)
    (hW : 0 < W) (hH : 0 < H) :
    getNormalizedBboxEntity E a W H =
      Except.ok
        { shape := Shape.rect { x1 := x1 / W, y1 := y1 / H, x2 := x2 / W, y2 := y2 / H },
          labels := [{ label := lab }] } ∧
    x1 / W * W = x1 ∧ y1 / H * H = y1 ∧ x2 / W * W = x2 ∧ y2 / H * H = y2 ∧
    getOriginalBboxEntity E a =
      Except.ok
        { shape := Shape.rect { x1 := x1, y1 := y1, x2 := x2, y2 := y2 },
          labels := [{ label := lab }] } := by
  have hlab' : E[a.label]? = some lab := by
    rw [← List.get?_eq_getElem?]
    exact hlab
  refine ⟨?_, div_mul_cancel₀ x1 hW.ne', div_mul_cancel₀ y1 hH.ne',
    div_mul_cancel₀ x2 hW.ne', div_mul_cancel₀ y2 hH.ne', ?_⟩
  · simp [getNormalizedBboxEntity, hpts, hlab']
  · simp [getOriginalBboxEntity, hpts, hlab']

/-- A concrete label entity for the shape-conversion witnesses. -/
def demoLabel : LabelEntity :=
  { name := "cat", domain := "DETECTION", is_empty := false, id := 0 }

/-- Witness for C6 at W = 4, H = 2 and pixel box (1, 2, 3, 4). -/
theorem normalized_bbox_roundtrip_witness :
    getNormalizedBboxEntity [demoLabel] { points := [1, 2, 3, 4], label := 0 } 4 2 =
      Except.ok
        { shape := Shape.rect { x1 := 1 / 4, y1 := 2 / 2, x2 := 3 / 4, y2 := 4 / 2 },
          labels := [{ label := demoLabel }] } ∧
    (1 : ℚ) / 4 * 4 = 1 ∧ (2 : ℚ) / 2 * 2 = 2 ∧ (3 : ℚ) / 4 * 4 = 3 ∧ (4 : ℚ) / 2 * 2 = 4 ∧
    getOriginalBboxEntity [demoLabel] { points := [1, 2, 3, 4], label := 0 } =
      Except.ok
        { shape := Shape.rect { x1 := 1, y1 := 2, x2 := 3, y2 := 4 },
          labels := [{ label := demoLabel }] } :=
  normalized_bbox_roundtrip [demoLabel] demoLabel { points := [1, 2, 3, 4], label := 0 }
    1 2 3 4 4 2 rfl rfl (by norm_num) (by norm_num)

/-- C7: the spec demands that an odd-length polygon coordinate list fail with
a ShapeError at conversion time; the code instead fails with an IndexError
from the out-of-range access `points[i + 1]` at the final loop step (the
even-length behaviour — paired, normalized points in order — is as claimed,
shown here on the length-4 input). -/
theorem polygon_odd_coords_index_error :
    getPolygonEntity [demoLabel] { points := [1, 2, 3], label := 0 } 2 2 =
      Except.error PyErr.indexError ∧
    (Except.error PyErr.indexError : Except PyErr Annot) ≠
      Except.error PyErr.shapeError ∧
    getPolygonEntity [demoLabel] { points := [1, 2, 3, 4], label := 0 } 2 2 =
      Except.ok
        { shape := Shape.polygon [{ x := 1 / 2, y := 2 / 2 }, { x := 3 / 2, y := 4 / 2 }],
          labels := [{ label := demoLabel }] } := by
  refine ⟨rfl, by decide, rfl⟩

/-- C8: when every index of `used_labels` is in range, the pruning loop
replaces the label-entity list with exactly the selected entries, in the
order given by the index list. -/
theorem remove_unused_label_entities_selects_in_order (E : List LabelEntity) (L : List Nat)
    (h : ∀ i ∈ L, i < E.length) :
    removeUnusedLabelEntities E L = some (L.map fun i => E.getD i default) := by
  induction L with
  | nil => rfl
  | cons i rest ih =>
    have hi : i < E.length := h i (List.mem_cons_self i rest)
    have hrest : ∀ j ∈ rest, j < E.length := fun j hj => h j (List.mem_cons_of_mem i hj)
    have hget : E.get? i = some (E.get ⟨i, hi⟩) := List.get?_eq_get hi
    have hgetD : E.getD i default = E.get ⟨i, hi⟩ := by
      rw [List.getD_eq_getD_get?, hget]
      rfl
    show (match E.get? i, removeUnusedLabelEntities E rest with
        | some e, some acc => some (e :: acc)
        | _, _ => none) =
      some (List.map (fun j => E.getD j default) (i :: rest))
    rw [hget, ih hrest, List.map_cons, hgetD]

/-- Three distinct label entities for the pruning witness. -/
def demoEntities : List LabelEntity :=
  [{ name := "a", domain := "DETECTION", is_empty := false, id := 0 },
   { name := "b", domain := "DETECTION", is_empty := false, id := 1 },
   { name := "c", domain := "DETECTION", is_empty := false, id := 2 }]

/-- Witness for C8: pruning a 3-entity list with [2, 0] yields
[entities[2], entities[0]], in that order. -/
theorem remove_unused_label_entities_selects_in_order_witness :
    removeUnusedLabelEntities demoEntities [2, 0] =
      some ([2, 0].map fun i => demoEntities.getD i default) :=
  remove_unused_label_entities_selects_in_order demoEntities [2, 0] (by decide)

/-- C9: the annotation-scene wrapper returns the empty-scene sentinel exactly
for the empty shape list, and for a non-empty list returns a populated scene
of kind ANNOTATION carrying exactly the input shapes. -/
theorem ann_scene_entity_empty_iff (shapes : List Annot) :
    (getAnnSceneEntity shapes = AnnScene.nullScene ↔ shapes = []) ∧
    (shapes ≠ [] →
      getAnnSceneEntity shapes = AnnScene.scene AnnSceneKind.annotationKind shapes) := by
  constructor
  · constructor
    · intro h
      by_contra hne
      have hlen : shapes.length ≠ 0 := by simpa using hne
      simp [getAnnSceneEntity, hlen] at h
    · intro h
      subst h
      rfl
  · intro h
    have hlen : shapes.length ≠ 0 := by simpa using h
    simp [getAnnSceneEntity, hlen]

/-- A concrete annotation for the scene-wrapping witness. -/
def demoAnnot : Annot :=
  { shape := Shape.fullBox, labels := [{ label := demoLabel }] }

/-- Witness for C9 on a singleton list. -/
theorem ann_scene_entity_empty_iff_witness :
    getAnnSceneEntity [demoAnnot] = AnnScene.scene AnnSceneKind.annotationKind [demoAnnot] :=
  (ann_scene_entity_empty_iff [demoAnnot]).2 (by simp)

/-- C10: for every successful construction (roots either null or non-empty
strings), `is_train_phase` ends assigned, equal to True exactly when a train
root and no test root was supplied; but `data_type` is assigned if and only if
a train root was supplied, so a test-only construction leaves it unassigned. -/
theorem import_dataset_attr_assignment {D : Type} (env : DatumaroEnv D)
    (tr v te u : Option String) (r : ImportResult D)
    (htr : tr ≠ some "") (hte : te ≠ some "")
    (h : importDataset env tr v te u = Except.ok r) :
    r.is_train_phase.isSome = true ∧
    (r.is_train_phase = some true ↔ (tr.isSome = true ∧ te = none)) ∧
    (r.data_type.isSome = true ↔ tr.isSome = true) := by
  by_cases hboth : tr = none ∧ te = none
  · obtain ⟨h1, h2⟩ := hboth
    subst h1
    subst h2
    rw [importDataset, if_pos ⟨rfl, rfl⟩] at h
    cases h
  · obtain ⟨ha, hb, -, hd, he⟩ := importDataset_ok_attrs env tr v te u r hboth h
    cases te with
    | some t =>
      have hnet : t ≠ "" := fun hs => hte (by rw [hs])
      have hph := ha (pyTruthy_some hnet)
      refine ⟨by simp [hph], by simp [hph], ?_⟩
      cases tr with
      | none => simp [he rfl]
      | some s =>
        have hnes : s ≠ "" := fun hs => htr (by rw [hs])
        obtain ⟨c, hdt⟩ := hd (pyTruthy_some hnes)
        simp [hdt]
    | none =>
      cases tr with
      | none => exact absurd ⟨rfl, rfl⟩ hboth
      | some s =>
        have hnes : s ≠ "" := fun hs => htr (by rw [hs])
        have hph := hb rfl (pyTruthy_some hnes)
        obtain ⟨c, hdt⟩ := hd (pyTruthy_some hnes)
        exact ⟨by simp [hph], by simp [hph], by simp [hdt]⟩

/-- The result of a test-only construction of the demo environment: TESTING
holds the imported handle, the phase flag is False, and `data_type` was never
assigned. -/
def demoTestOnlyRun : ImportResult Nat :=
  { dataset := { training := none, validation := none, testing := some 30, unlabeled := none },
    data_type := none, is_train_phase := some false }

/-- Witness for C10: a test-only construction assigns `is_train_phase = False`
but leaves `data_type` unassigned. -/
theorem import_dataset_attr_assignment_witness :
    importDataset demoEnv none none (some "test_root") none =
      Except.ok demoTestOnlyRun ∧
    demoTestOnlyRun.is_train_phase.isSome = true ∧
    (demoTestOnlyRun.is_train_phase = some true ↔
      ((none : Option String).isSome = true ∧ (some "test_root" : Option String) = none)) ∧
    (demoTestOnlyRun.data_type.isSome = true ↔ (none : Option String).isSome = true) :=
  ⟨by decide,
   import_dataset_attr_assignment demoEnv none none (some "test_root") none demoTestOnlyRun
     (by decide) (by decide) (by decide)⟩
